import Mathlib

/-!
Shallow embedding of the `sfnt` package of highspot/font
(`src/sfnt/table_fvar.go`, `src/sfnt/table_os2.go`), together with
specification-level definitions and theorems checking the natural-language
specification against the code.

Byte buffers are modelled as `List Nat` (each element a byte value).
Machine integers are modelled as `Nat`/`Int`; `uint16`/`uint32` values
decoded from bytes are naturally in range, and `int16` fields are decoded
with an explicit twos-complement adjustment.

Types of the repository that are not under `src/` (`fixed`, `NameID`,
`Tag`, `baseTable`) are modelled from the spec where they are needed; each
such definition carries a doc comment saying so.
-/

namespace Sfnt

/-- Big-endian `uint8` at offset `i` of a byte buffer
(models one byte consumed by `encoding/binary.Read`). -/
def u8at (l : List Nat) (i : Nat) : Nat := l.getD i 0

/-- Big-endian `uint16` at offset `i` (models `binary.BigEndian` 2-byte read). -/
def u16at (l : List Nat) (i : Nat) : Nat := 256 * l.getD i 0 + l.getD (i + 1) 0

/-- Big-endian `uint32` at offset `i` (models `binary.BigEndian` 4-byte read). -/
def u32at (l : List Nat) (i : Nat) : Nat :=
  256 * (256 * (256 * l.getD i 0 + l.getD (i + 1) 0) + l.getD (i + 2) 0) + l.getD (i + 3) 0

/-- Big-endian `int16` at offset `i`: twos-complement reinterpretation of the
unsigned 16-bit value. -/
def i16at (l : List Nat) (i : Nat) : Int :=
  if u16at l i < 32768 then (u16at l i : Int) else (u16at l i : Int) - 65536

/-- Errors the decoders can produce.  `truncated` models the `io.EOF` /
`io.ErrUnexpectedEOF` returned by `encoding/binary.Read` when the buffer holds
fewer bytes than the fixed-size value being read (the spec's `Truncated` kind).
`invalidBinaryRead` models the `"binary.Read: invalid type ..."` error that
`encoding/binary.Read` returns when asked to decode a value whose type
contains slice or pointer fields (its `dataSize` returns -1); the payload is
the Go type string of the rejected argument.  The source contains no
`Malformed` error of any kind. -/
inductive FontError where
  | truncated : FontError
  | invalidBinaryRead : String → FontError
deriving DecidableEq, Repr

deriving instance DecidableEq for Except

/-- Modelled from the spec: a 16.16 fixed-point value (`fixed` in the
repository, not under `src/`): high 16 bits a signed integer part (`Major`),
low 16 bits an unsigned fraction part (`Minor`); 4 bytes on the wire. -/
structure fixed where
  Major : Int
  Minor : Nat
deriving DecidableEq, Repr

/-- Decode a `fixed` at offset `i`: `Major` from the first two bytes
(big-endian int16), `Minor` from the next two (big-endian uint16). -/
def fixedAt (l : List Nat) (i : Nat) : fixed :=
  { Major := i16at l i, Minor := u16at l (i + 2) }

/-- Struct `FvarHeader` from `table_fvar.go`.  All fields are `uint16` on the wire
(`NameID` and `Tag` widths included), 16 bytes total. -/
structure FvarHeader where
  MajorVersion : Nat
  MinorVersion : Nat
  OffsetToData : Nat
  CountSizePairs : Nat
  AxisCount : Nat
  AxisSize : Nat
  InstanceCount : Nat
  InstanceSize : Nat
deriving DecidableEq, Repr

/-- Struct `VariationAxis` from `table_fvar.go`: `AxisTag uint32`, three `fixed`
values, `Flags uint16`, `NameID` (modelled from the spec as a 2-byte
name-table reference); 20 bytes on the wire. -/
structure VariationAxis where
  AxisTag : Nat
  MinValue : fixed
  DefaultValue : fixed
  MaxValue : fixed
  Flags : Nat
  NameID : Nat
deriving DecidableEq, Repr

/-- Struct `Instance` from `table_fvar.go`.  In Go, `Coord` is `[]*fixed` (a slice)
and `PsNameID` is `*NameID` (a pointer, modelled as `Option`). -/
structure Instance where
  NameID : Nat
  Flags : Nat
  Coord : List fixed
  PsNameID : Option Nat
deriving DecidableEq, Repr

/-- Struct `InstanceWithoutPSName` from `table_fvar.go`; `Coord` is `[]*fixed`. -/
structure InstanceWithoutPSName where
  NameID : Nat
  Flags : Nat
  Coord : List fixed
deriving DecidableEq, Repr

/-- Struct `TableFvar` from `table_fvar.go`.  `baseTable` (not under `src/`) is
modelled from the spec as the 4-byte tag the table was parsed as. -/
structure TableFvar where
  baseTable : Nat
  Header : FvarHeader
  Axis : List VariationAxis
  Instance : List Instance
  bytes : List Nat
deriving DecidableEq, Repr

/-- Method Bytes of TableFvar: returns the retained bytes verbatim. -/
def TableFvar.Bytes (t : TableFvar) : List Nat := t.bytes

/-- Models `binary.Read(r, binary.BigEndian, &header)` for `FvarHeader`:
`Read` first fills a 16-byte buffer with `io.ReadFull` (error if fewer than
16 bytes remain, consuming nothing observable), then decodes the eight
`uint16` fields big-endian in declaration order. -/
def readFvarHeader (buf : List Nat) : Option (FvarHeader × List Nat) :=
  if buf.length < 16 then none
  else some
    ({ MajorVersion := u16at buf 0
       MinorVersion := u16at buf 2
       OffsetToData := u16at buf 4
       CountSizePairs := u16at buf 6
       AxisCount := u16at buf 8
       AxisSize := u16at buf 10
       InstanceCount := u16at buf 12
       InstanceSize := u16at buf 14 }, buf.drop 16)

/-- Models `binary.Read(r, binary.BigEndian, &axis)` for `VariationAxis`:
a 20-byte fixed-size read. -/
def readVariationAxis (buf : List Nat) : Option (VariationAxis × List Nat) :=
  if buf.length < 20 then none
  else some
    ({ AxisTag := u32at buf 0
       MinValue := fixedAt buf 4
       DefaultValue := fixedAt buf 8
       MaxValue := fixedAt buf 12
       Flags := u16at buf 16
       NameID := u16at buf 18 }, buf.drop 20)

/-- The axis loop of `parseTableFvar`: reads `n` axis records sequentially,
appending each (Go copies the record into a fresh `VariationAxis`). -/
def readAxes : Nat → List Nat → Option (List VariationAxis × List Nat)
  | 0, buf => some ([], buf)
  | n + 1, buf =>
    match readVariationAxis buf with
    | none => none
    | some (a, rest) =>
      match readAxes n rest with
      | none => none
      | some (as, rest2) => some (a :: as, rest2)

/-- Models `binary.Read(r, binary.BigEndian, &instance)` for `Instance`:
`Instance` contains a slice field (`Coord []*fixed`) and a pointer field
(`PsNameID *NameID`), for which `encoding/binary`'s `dataSize` returns -1, so
`Read` fails immediately with `"binary.Read: invalid type *sfnt.Instance"`
without consuming any bytes, regardless of the buffer's contents. -/
def binaryReadInstance (_buf : List Nat) : Except FontError (Instance × List Nat) :=
  .error (.invalidBinaryRead ("*sfnt.Instance"))

/-- Models `binary.Read(r, binary.BigEndian, &instance)` for
`InstanceWithoutPSName`: it contains a slice field (`Coord []*fixed`), so the
read fails the same way as `binaryReadInstance`. -/
def binaryReadInstanceWithoutPSName (_buf : List Nat) :
    Except FontError (InstanceWithoutPSName × List Nat) :=
  .error (.invalidBinaryRead ("*sfnt.InstanceWithoutPSName"))

/-- Constant noPsNameIdVariant, `2 * uint16(unsafe.Sizeof(types.Uint16))` in Go.
`types.Uint16` is a constant of type `go/types.BasicKind` (underlying type
`int`, 8 bytes on a 64-bit platform), so this is `2 * 8 = 16` — not the
`2 * 2 = 4` bytes of two `uint16` fields. -/
def noPsNameIdVariant : Nat := 2 * 8

/-- Constant invariant, Go `uint16(unsafe.Sizeof(types.Int16)) + uint16(unsafe.Sizeof(types.Uint16))`:
again the sizes of two `go/types.BasicKind` constants, `8 + 8 = 16`. -/
def invariant : Nat := 8 + 8

/-- The instance loop of `parseTableFvar`: for each of the `n` records,
compare the header's `InstanceSize` against `noPsNameIdVariant + invariant`
and call `binary.Read` on the corresponding record type, copying the result
into an `Instance` (with `PsNameID := none` in the without-PS-name branch). -/
def readInstances (instanceSize : Nat) : Nat → List Nat → Except FontError (List Instance × List Nat)
  | 0, buf => .ok ([], buf)
  | n + 1, buf =>
    if instanceSize = noPsNameIdVariant + invariant then
      match binaryReadInstanceWithoutPSName buf with
      | .error e => .error e
      | .ok (inst, rest) =>
        match readInstances instanceSize n rest with
        | .error e => .error e
        | .ok (is, rest2) =>
          .ok ({ NameID := inst.NameID, Flags := inst.Flags,
                 Coord := inst.Coord, PsNameID := none } :: is, rest2)
    else
      match binaryReadInstance buf with
      | .error e => .error e
      | .ok (inst, rest) =>
        match readInstances instanceSize n rest with
        | .error e => .error e
        | .ok (is, rest2) =>
          .ok ({ NameID := inst.NameID, Flags := inst.Flags,
                 Coord := inst.Coord, PsNameID := inst.PsNameID } :: is, rest2)

/-- The tail of `parseTableFvar` after the header and the axis records have
been read: run the instance loop and assemble the table, retaining the
original bytes verbatim. -/
def parseTableFvarAfterAxes (tag : Nat) (buf : List Nat) (header : FvarHeader)
    (axes : List VariationAxis) (r2 : List Nat) : Except FontError TableFvar :=
  match readInstances header.InstanceSize header.InstanceCount r2 with
  | .error e => .error e
  | .ok (insts, _) =>
    .ok { baseTable := tag, Header := header, Axis := axes,
          Instance := insts, bytes := buf }

/-- The tail of `parseTableFvar` after the header has been read: run the
axis loop, then continue with the instance loop. -/
def parseTableFvarAfterHeader (tag : Nat) (buf : List Nat) (header : FvarHeader)
    (r1 : List Nat) : Except FontError TableFvar :=
  match readAxes header.AxisCount r1 with
  | none => .error .truncated
  | some (axes, r2) => parseTableFvarAfterAxes tag buf header axes r2

/-- Function `parseTableFvar` from `table_fvar.go`: read the header, then
`AxisCount` axis records, then `InstanceCount` instance records (shape chosen
by comparing `InstanceSize` with `noPsNameIdVariant + invariant`), retaining
the original bytes verbatim.  The sequential body of the Go function is
split into the stage functions above, one per loop. -/
def parseTableFvar (tag : Nat) (buf : List Nat) : Except FontError TableFvar :=
  match readFvarHeader buf with
  | none => .error .truncated
  | some (header, r1) => parseTableFvarAfterHeader tag buf header r1

/-- Struct `Panose` from `table_os2.go`: ten `uint8` fields. -/
structure Panose where
  BFamilyType : Nat
  BSerifStyle : Nat
  BWeight : Nat
  BProportion : Nat
  BContrast : Nat
  BStrokeVariation : Nat
  BArmStyle : Nat
  BLetterform : Nat
  BMidline : Nat
  BXHeight : Nat
deriving DecidableEq, Repr

/-- The `[4]uint32` Unicode-range bitmap `UlUnicodeRange`. -/
structure UnicodeRangeWords where
  w0 : Nat
  w1 : Nat
  w2 : Nat
  w3 : Nat
deriving DecidableEq, Repr

/-- Array indexing into the `[4]uint32` bitmap.  Go would panic on an index
above 3; every catalog entry has `BitIndex ≤ 39`, so only indices 0 and 1 are
ever used and the default branch is unreachable on the source's inputs. -/
def UnicodeRangeWords.word : UnicodeRangeWords → Nat → Nat
  | m, 0 => m.w0
  | m, 1 => m.w1
  | m, 2 => m.w2
  | m, 3 => m.w3
  | _, _ + 4 => 0

/-- Struct `TableOs2Original` from `table_os2.go`: the fixed leading block,
68 bytes on the wire (16 two-byte fields, 10 Panose bytes, 16 bitmap bytes,
4 `AchVendID` bytes — `Tag` is modelled from the spec as a 4-byte /
32-bit identifier — and 3 more two-byte fields). -/
structure TableOs2Original where
  Version : Nat
  XAvgCharWidth : Int
  USWeightClass : Nat
  USWidthClass : Nat
  FSType : Int
  YSubscriptXSize : Int
  YSubscriptYSize : Int
  YSubscriptXOffset : Int
  YSubscriptYOffset : Int
  YSuperscriptXSize : Int
  YSuperscriptYSize : Int
  YSuperscriptXOffset : Int
  YSuperscriptYOffset : Int
  YStrikeoutSize : Int
  YStrikeoutPosition : Int
  SFamilyClass : Int
  Panose : Panose
  UlUnicodeRange : UnicodeRangeWords
  AchVendID : Nat
  FsSelection : Nat
  FsFirstCharIndex : Nat
  FsLastCharIndex : Nat
deriving DecidableEq, Repr

/-- Struct `TableOs2AdditionalFields` from `table_os2.go`. -/
structure TableOs2AdditionalFields where
  STypoAscender : Int
  STypoDescender : Int
  STypoLineGap : Int
  UsWinAscent : Nat
  UsWinDescent : Nat
  UlCodePageRange1 : Nat
  UlCodePageRange2 : Nat
  SxHeigh : Int
  SCapHeight : Int
  UsDefaultChar : Nat
  UsBreakChar : Nat
  UsMaxContext : Nat
  UsLowerPointSize : Nat
  UsUpperPointSize : Nat
deriving DecidableEq, Repr

/-- The Go zero value of `TableOs2AdditionalFields`: every field 0.  This is
what the embedded struct holds in every `TableOS2` built by `parseTableOS2`,
which never assigns it. -/
def zeroAdditionalFields : TableOs2AdditionalFields :=
  { STypoAscender := 0, STypoDescender := 0, STypoLineGap := 0,
    UsWinAscent := 0, UsWinDescent := 0,
    UlCodePageRange1 := 0, UlCodePageRange2 := 0,
    SxHeigh := 0, SCapHeight := 0,
    UsDefaultChar := 0, UsBreakChar := 0, UsMaxContext := 0,
    UsLowerPointSize := 0, UsUpperPointSize := 0 }

/-- Struct `TableOS2` from `table_os2.go`.  Go embeds `baseTable` (the tag,
modelled from the spec), `TableOs2Original` and `TableOs2AdditionalFields`
by value with field promotion; here they are the fields `original` and
`additional`. -/
structure TableOS2 where
  baseTable : Nat
  original : TableOs2Original
  additional : TableOs2AdditionalFields
  bytes : List Nat
deriving DecidableEq, Repr

/-- Models `binary.Read(r, binary.BigEndian, &originalTable)` for
`TableOs2Original`: a 68-byte fixed-size read (error if fewer than 68 bytes),
decoding every field big-endian in declaration order at its exact offset. -/
def readTableOs2Original (buf : List Nat) : Option (TableOs2Original × List Nat) :=
  if buf.length < 68 then none
  else some
    ({ Version := u16at buf 0
       XAvgCharWidth := i16at buf 2
       USWeightClass := u16at buf 4
       USWidthClass := u16at buf 6
       FSType := i16at buf 8
       YSubscriptXSize := i16at buf 10
       YSubscriptYSize := i16at buf 12
       YSubscriptXOffset := i16at buf 14
       YSubscriptYOffset := i16at buf 16
       YSuperscriptXSize := i16at buf 18
       YSuperscriptYSize := i16at buf 20
       YSuperscriptXOffset := i16at buf 22
       YSuperscriptYOffset := i16at buf 24
       YStrikeoutSize := i16at buf 26
       YStrikeoutPosition := i16at buf 28
       SFamilyClass := i16at buf 30
       Panose :=
         { BFamilyType := u8at buf 32, BSerifStyle := u8at buf 33,
           BWeight := u8at buf 34, BProportion := u8at buf 35,
           BContrast := u8at buf 36, BStrokeVariation := u8at buf 37,
           BArmStyle := u8at buf 38, BLetterform := u8at buf 39,
           BMidline := u8at buf 40, BXHeight := u8at buf 41 }
       UlUnicodeRange :=
         { w0 := u32at buf 42, w1 := u32at buf 46,
           w2 := u32at buf 50, w3 := u32at buf 54 }
       AchVendID := u32at buf 58
       FsSelection := u16at buf 62
       FsFirstCharIndex := u16at buf 64
       FsLastCharIndex := u16at buf 66 }, buf.drop 68)

/-- Function `parseTableOS2` from `table_os2.go`: read the fixed leading block; the
trailing additional fields are **not** read (the source's TODO comment:
"There may be additional fields"), so the embedded
`TableOs2AdditionalFields` keeps its Go zero value; the original bytes are
retained verbatim. -/
def parseTableOS2 (tag : Nat) (buf : List Nat) : Except FontError TableOS2 :=
  match readTableOs2Original buf with
  | none => .error .truncated
  | some (originalTable, _) =>
    .ok { baseTable := tag, original := originalTable,
          additional := zeroAdditionalFields, bytes := buf }

/-- Method Bytes of TableOS2: returns the retained bytes verbatim. -/
def TableOS2.Bytes (t : TableOS2) : List Nat := t.bytes

/-- Method `WeightClass` from `table_os2.go`: a `switch` on `USWeightClass` with
cases 1..9 and a default returning `strconv.Itoa(int(t.USWeightClass))`
(the decimal string; `Nat.repr` here). -/
def TableOS2.WeightClass (t : TableOS2) : String :=
  if t.original.USWeightClass = 1 then "Ultra-light"
  else if t.original.USWeightClass = 2 then "Extra-light"
  else if t.original.USWeightClass = 3 then "Light"
  else if t.original.USWeightClass = 4 then "Semi-light"
  else if t.original.USWeightClass = 5 then "Medium"
  else if t.original.USWeightClass = 6 then "Semi-bold"
  else if t.original.USWeightClass = 7 then "Bold"
  else if t.original.USWeightClass = 8 then "Extra-bold"
  else if t.original.USWeightClass = 9 then "Ultra-bold"
  else Nat.repr t.original.USWeightClass

/-- Method `WidthClass` from `table_os2.go`: a `switch` on `USWidthClass` with
cases 1..9 and a default returning `"Unknown"`. -/
def TableOS2.WidthClass (t : TableOS2) : String :=
  if t.original.USWidthClass = 1 then "Ultra-condensed"
  else if t.original.USWidthClass = 2 then "Extra-condensed"
  else if t.original.USWidthClass = 3 then "Condensed"
  else if t.original.USWidthClass = 4 then "Semi-condensed"
  else if t.original.USWidthClass = 5 then "Medium"
  else if t.original.USWidthClass = 6 then "Semi-expanded"
  else if t.original.USWidthClass = 7 then "Expanded"
  else if t.original.USWidthClass = 8 then "Extra-expanded"
  else if t.original.USWidthClass = 9 then "Ultra-expanded"
  else "Unknown"

/-- Predicate IsBold: `(uint16(0b00100000) & t.FsSelection) == uint16(32)`. -/
def TableOS2.IsBold (t : TableOS2) : Bool :=
  ((0b00100000 : Nat) &&& t.original.FsSelection) == 32

/-- Predicate IsStrikeout: `(uint16(0b00010000) & t.FsSelection) == uint16(16)`. -/
def TableOS2.IsStrikeout (t : TableOS2) : Bool :=
  ((0b00010000 : Nat) &&& t.original.FsSelection) == 16

/-- Predicate IsOutlined: `(uint16(0b00001000) & t.FsSelection) == uint16(8)`. -/
def TableOS2.IsOutlined (t : TableOS2) : Bool :=
  ((0b00001000 : Nat) &&& t.original.FsSelection) == 8

/-- Predicate IsNegative: `(uint16(0b00000100) & t.FsSelection) == uint16(4)`. -/
def TableOS2.IsNegative (t : TableOS2) : Bool :=
  ((0b00000100 : Nat) &&& t.original.FsSelection) == 4

/-- Predicate IsUnderscore: `(uint16(0b00000010) & t.FsSelection) == uint16(2)`. -/
def TableOS2.IsUnderscore (t : TableOS2) : Bool :=
  ((0b00000010 : Nat) &&& t.original.FsSelection) == 2

/-- Predicate IsItalic: `(uint16(0b00000001) & t.FsSelection) == uint16(1)`. -/
def TableOS2.IsItalic (t : TableOS2) : Bool :=
  ((0b00000001 : Nat) &&& t.original.FsSelection) == 1

/-- Method `FontStyle` from `table_os2.go`: the if/else-if chain testing the
selection-flag predicates in the order italic, bold, underscore, outlined,
strikeout, negative, returning "normal" when none matches. -/
def TableOS2.FontStyle (t : TableOS2) : String :=
  if t.IsItalic then "italic"
  else if t.IsBold then "bold"
  else if t.IsUnderscore then "underscore"
  else if t.IsOutlined then "outlined"
  else if t.IsStrikeout then "strikeout"
  else if t.IsNegative then "negative"
  else "normal"

/-- Struct `UnicodeSupport` from `table_os2.go`. -/
structure UnicodeSupport where
  BitIndex : Nat
  Name : String
  UnicodeRanges : List String
deriving DecidableEq, Repr

/-- Method `isSupported` from `table_os2.go`:
`(uint32(math.Exp2(float64(exponentValue))) & unicodeRangeMask[applicableBitMaskIndex]) != 0`.
`math.Exp2` is exact on integer exponents, and `exponentValue = BitIndex % 32`
is at most 31, so `uint32(math.Exp2(...))` is exactly `2 ^ exponentValue`. -/
def UnicodeSupport.isSupported (s : UnicodeSupport) (unicodeRangeMask : UnicodeRangeWords) : Bool :=
  let applicableBitMaskIndex := s.BitIndex / 32
  let exponentValue := s.BitIndex % 32
  ((2 ^ exponentValue) &&& unicodeRangeMask.word applicableBitMaskIndex) != 0

def BasicLatin : UnicodeSupport :=
  { BitIndex := 0, Name := "Basic Latin", UnicodeRanges := ["0000-007F"] }

def Latin1Supplement : UnicodeSupport :=
  { BitIndex := 1, Name := "Latin-1 Supplement", UnicodeRanges := ["0080-00FF"] }

def LatinExtendedA : UnicodeSupport :=
  { BitIndex := 2, Name := "Latin Extended-A", UnicodeRanges := ["0100-017F"] }

def LatinExtendedB : UnicodeSupport :=
  { BitIndex := 3, Name := "Latin Extended-B", UnicodeRanges := ["0180-024F"] }

def IPAPhonetic : UnicodeSupport :=
  { BitIndex := 4, Name := "IPA & Phonetic Extensions/Supplements",
    UnicodeRanges := ["0250-02AF", "1D00-1D7F", "1D80-1DBF"] }

def SpacingModifierLetters : UnicodeSupport :=
  { BitIndex := 5, Name := "Spacing Modifier Letters",
    UnicodeRanges := ["02B0-02FF", "A700-A71F"] }

def CombiningDiacriticalMarks : UnicodeSupport :=
  { BitIndex := 6, Name := "Combining Diacritical Marks & Supplements",
    UnicodeRanges := ["0300-036F", "1DC0-1DFF"] }

def GreekCoptic : UnicodeSupport :=
  { BitIndex := 7, Name := "Greek and Coptic", UnicodeRanges := ["0370-03FF"] }

def Coptic : UnicodeSupport :=
  { BitIndex := 8, Name := "Coptic", UnicodeRanges := ["2C80-2CFF"] }

def Cyrillic : UnicodeSupport :=
  { BitIndex := 9, Name := "Cyrillic",
    UnicodeRanges := ["0400-04FF", "0500-052F", "2DE0-2DFF", "A640-A69F"] }

def Armenian : UnicodeSupport :=
  { BitIndex := 10, Name := "Armenian", UnicodeRanges := ["0530-058F"] }

def Hebrew : UnicodeSupport :=
  { BitIndex := 11, Name := "Hebrew", UnicodeRanges := ["0590-05FF"] }

def Vai : UnicodeSupport :=
  { BitIndex := 12, Name := "Vai", UnicodeRanges := ["A500-A63F"] }

def Arabic : UnicodeSupport :=
  { BitIndex := 13, Name := "Arabic", UnicodeRanges := ["0600-06FF", "0750-077F"] }

def NKo : UnicodeSupport :=
  { BitIndex := 14, Name := "NKo", UnicodeRanges := ["07C0-07FF"] }

def Devanagari : UnicodeSupport :=
  { BitIndex := 15, Name := "Devanagari", UnicodeRanges := ["0900-097F"] }

def Bengali : UnicodeSupport :=
  { BitIndex := 16, Name := "Bengali", UnicodeRanges := ["0980-09FF"] }

def Gurmukhi : UnicodeSupport :=
  { BitIndex := 17, Name := "Gurmukhi", UnicodeRanges := ["0A00-0A7F"] }

def Gujarati : UnicodeSupport :=
  { BitIndex := 18, Name := "Gujarati", UnicodeRanges := ["0A80-0AFF"] }

def Oriya : UnicodeSupport :=
  { BitIndex := 19, Name := "Oriya", UnicodeRanges := ["0B00-0B7F"] }

def Tamil : UnicodeSupport :=
  { BitIndex := 20, Name := "Tamil", UnicodeRanges := ["0B80-0BFF"] }

def Telugu : UnicodeSupport :=
  { BitIndex := 21, Name := "Telugu", UnicodeRanges := ["0C00-0C7F"] }

def Kannada : UnicodeSupport :=
  { BitIndex := 22, Name := "Kannada", UnicodeRanges := ["0C80-0CFF"] }

def Malayalam : UnicodeSupport :=
  { BitIndex := 23, Name := "Malayalam", UnicodeRanges := ["0D00-0D7F"] }

def Thai : UnicodeSupport :=
  { BitIndex := 24, Name := "Thai", UnicodeRanges := ["0E00-0E7F"] }

def Lao : UnicodeSupport :=
  { BitIndex := 25, Name := "Lao", UnicodeRanges := ["0E80-0EFF"] }

def Georgian : UnicodeSupport :=
  { BitIndex := 26, Name := "Georgian and supplement",
    UnicodeRanges := ["10A0-10FF", "2D00-2D2F"] }

def Balinese : UnicodeSupport :=
  { BitIndex := 27, Name := "Balinese", UnicodeRanges := ["1B00-1B7F"] }

def HangulJamo : UnicodeSupport :=
  { BitIndex := 28, Name := "Hangul Jamo", UnicodeRanges := ["1100-11FF"] }

def LatinExtendedAdditional : UnicodeSupport :=
  { BitIndex := 29, Name := "Latin Extended Additional",
    UnicodeRanges := ["1E00-1EFF", "2C60-2C7F", "A720-A7FF"] }

def GreekExtended : UnicodeSupport :=
  { BitIndex := 30, Name := "Greek Extended", UnicodeRanges := ["1F00-1FFF"] }

def GeneralPunctuation : UnicodeSupport :=
  { BitIndex := 31, Name := "General & Supplemental Punctuation",
    UnicodeRanges := ["2000-206F", "2E00-2E7F"] }

def SuperAndSubScripts : UnicodeSupport :=
  { BitIndex := 32, Name := "Superscripts And Subscripts",
    UnicodeRanges := ["2070-209F"] }

def CurrencySymbols : UnicodeSupport :=
  { BitIndex := 33, Name := "Currency Symbols", UnicodeRanges := ["20A0-20CF"] }

def CDMSymbols : UnicodeSupport :=
  { BitIndex := 34, Name := "Combining Diacritical Marks For Symbols",
    UnicodeRanges := ["20D0-20FF"] }

def LetterlikeSymbols : UnicodeSupport :=
  { BitIndex := 35, Name := "Letterlike Symbols", UnicodeRanges := ["2100-214F"] }

def NumberForms : UnicodeSupport :=
  { BitIndex := 36, Name := "Number Forms", UnicodeRanges := ["2150-218F"] }

def Arrows : UnicodeSupport :=
  { BitIndex := 37, Name := "Arrows",
    UnicodeRanges := ["2190-21FF", "27F0-27FF", "2900-297F", "2B00-2BFF"] }

def MathematicalOperators : UnicodeSupport :=
  { BitIndex := 38, Name := "Mathematical Operators",
    UnicodeRanges := ["2200-22FF", "2A00-2AFF", "27C0-27EF", "2980-29FF"] }

def MiscellaneousTechnical : UnicodeSupport :=
  { BitIndex := 39, Name := "Miscellaneous Technical",
    UnicodeRanges := ["2300-23FF"] }

/-- Catalog `SupportedUnicodeRanges` from `table_os2.go`: the catalog slice, in the
source's declaration order (note `Arabic` before `Vai`, as in the source). -/
def SupportedUnicodeRanges : List UnicodeSupport :=
  [BasicLatin, Latin1Supplement, LatinExtendedA, LatinExtendedB, IPAPhonetic,
   SpacingModifierLetters, CombiningDiacriticalMarks,
   GreekCoptic, Coptic, Cyrillic, Armenian, Hebrew, Arabic, Vai, NKo,
   Devanagari, Bengali, Gurmukhi, Gujarati, Oriya, Tamil, Telugu, Kannada,
   Malayalam, Thai, Lao, Georgian,
   Balinese, HangulJamo, LatinExtendedAdditional, GreekExtended,
   GeneralPunctuation, SuperAndSubScripts,
   CurrencySymbols, CDMSymbols, LetterlikeSymbols, NumberForms, Arrows,
   MathematicalOperators, MiscellaneousTechnical]

/-- Method `UnicodeRanges` from `table_os2.go`: walk the catalog in order; for each
supported entry append each of its sub-range strings prefixed with "U+"
(the inner Go loop appending one string at a time equals appending the mapped
list). -/
def TableOS2.UnicodeRanges (t : TableOS2) : List String :=
  SupportedUnicodeRanges.foldl
    (fun ranges unicodeRange =>
      if unicodeRange.isSupported t.original.UlUnicodeRange then
        ranges ++ unicodeRange.UnicodeRanges.map (fun r => "U+" ++ r)
      else ranges)
    []

/-- The spec's bit test (§4.3 step 4): bit `b` of the 128-bit bitmap is set
iff `(bitmap[b / 32] >> (b % 32)) & 1 = 1`. -/
def specBitSet (mask : UnicodeRangeWords) (b : Nat) : Bool :=
  ((mask.word (b / 32)) >>> (b % 32)) &&& 1 == 1

/-- The spec's description of `UnicodeRanges` (§4.3 step 4): the sub-range
strings, prefixed with "U+", of exactly those catalog entries whose bit is
set, in catalog declaration order. -/
def specUnicodeRanges (mask : UnicodeRangeWords) : List String :=
  (SupportedUnicodeRanges.filter (fun e => specBitSet mask e.BitIndex)).flatMap
    (fun e => e.UnicodeRanges.map (fun r => "U+" ++ r))

/-- The spec's description of `FontStyle` (§4.3 step 3): test the selection
bits (bit 0 = italic, bit 1 = underscore, bit 2 = negative, bit 3 = outlined,
bit 4 = strikeout, bit 5 = bold) in the priority order
italic > bold > underscore > outlined > strikeout > negative, with fallback
"normal". -/
def specFontStyle (sel : Nat) : String :=
  if (sel >>> 0) &&& 1 == 1 then "italic"
  else if (sel >>> 5) &&& 1 == 1 then "bold"
  else if (sel >>> 1) &&& 1 == 1 then "underscore"
  else if (sel >>> 3) &&& 1 == 1 then "outlined"
  else if (sel >>> 4) &&& 1 == 1 then "strikeout"
  else if (sel >>> 2) &&& 1 == 1 then "negative"
  else "normal"

/-- The spec's description of `WeightClass` (§4.3 step 3 / §8): values 1..9
map to the nine named buckets; any other value is reported as its decimal
string. -/
def specWeightClass (w : Nat) : String :=
  if 1 ≤ w ∧ w ≤ 9 then
    ["Ultra-light", "Extra-light", "Light", "Semi-light", "Medium",
     "Semi-bold", "Bold", "Extra-bold", "Ultra-bold"].getD (w - 1) ""
  else Nat.repr w

/-- An `TableOs2Original` with every field zero; used to build concrete
tables for the classification-lookup claims (those methods read only the
field being varied). -/
def zeroOriginal : TableOs2Original :=
  { Version := 0, XAvgCharWidth := 0, USWeightClass := 0, USWidthClass := 0,
    FSType := 0, YSubscriptXSize := 0, YSubscriptYSize := 0,
    YSubscriptXOffset := 0, YSubscriptYOffset := 0, YSuperscriptXSize := 0,
    YSuperscriptYSize := 0, YSuperscriptXOffset := 0, YSuperscriptYOffset := 0,
    YStrikeoutSize := 0, YStrikeoutPosition := 0, SFamilyClass := 0,
    Panose := { BFamilyType := 0, BSerifStyle := 0, BWeight := 0,
                BProportion := 0, BContrast := 0, BStrokeVariation := 0,
                BArmStyle := 0, BLetterform := 0, BMidline := 0, BXHeight := 0 },
    UlUnicodeRange := { w0 := 0, w1 := 0, w2 := 0, w3 := 0 },
    AchVendID := 0, FsSelection := 0, FsFirstCharIndex := 0, FsLastCharIndex := 0 }

/-- Build a decoded OS/2 table from a fixed-block value (tag 0, no bytes). -/
def mkOs2 (orig : TableOs2Original) : TableOS2 :=
  { baseTable := 0, original := orig, additional := zeroAdditionalFields, bytes := [] }

/-- Whether an `Except` result is a success (Go: `err == nil`). -/
def exceptIsOk {α : Type} : Except FontError α → Bool
  | .ok _ => true
  | .error _ => false

/-- The additional-fields block of a successful OS/2 decode. -/
def os2AdditionalOf : Except FontError TableOS2 → Option TableOs2AdditionalFields
  | .ok t => some t.additional
  | .error _ => none

/-- The `STypoAscender` field of a successful OS/2 decode. -/
def sTypoAscenderOf (r : Except FontError TableOS2) : Option Int :=
  (os2AdditionalOf r).map (fun a => a.STypoAscender)

/-- The retained bytes of a successful OS/2 decode. -/
def bytesOfOs2 : Except FontError TableOS2 → Option (List Nat)
  | .ok t => some t.Bytes
  | .error _ => none

/-- The retained bytes of a successful fvar decode. -/
def bytesOfFvar : Except FontError TableFvar → Option (List Nat)
  | .ok t => some t.Bytes
  | .error _ => none

/-- A 16-byte fvar buffer: version 1.0, offset 16, 2 count/size pairs,
`AxisCount = 0`, `AxisSize = 20`, `InstanceCount = 1`, `InstanceSize = 4`,
followed by one 4-byte instance record (`NameID = 1`, `Flags = 0`).
4 bytes is exactly the spec's "without optional identifier" instance size
for zero axes (2 `NameID` bytes + 2 `Flags` bytes + 0·4 coordinate bytes). -/
def c1buf : List Nat :=
  [0, 1, 0, 0, 0, 16, 0, 2, 0, 0, 0, 20, 0, 1, 0, 4] ++ [0, 1, 0, 0]

/-- A 16-byte fvar buffer whose header declares `AxisCount = 0`,
`InstanceCount = 0` and `InstanceSize = 99` — an instance size matching
neither expected instance-record shape. -/
def c2buf : List Nat :=
  [0, 1, 0, 0, 0, 16, 0, 2, 0, 0, 0, 20, 0, 0, 0, 99]

/-- fvar buffer with `AxisCount = 0`, `InstanceCount = 0`, `InstanceSize = 7`. -/
def c2wokbuf : List Nat :=
  [0, 1, 0, 0, 0, 16, 0, 2, 0, 0, 0, 20, 0, 0, 0, 7]

/-- fvar buffer with `AxisCount = 0`, `InstanceCount = 2`, `InstanceSize = 6`. -/
def c2werrbuf : List Nat :=
  [0, 1, 0, 0, 0, 16, 0, 2, 0, 0, 0, 20, 0, 2, 0, 6]

/-- A 100-byte OS/2 buffer: a zero fixed block followed by a complete
32-byte additional-fields block (twelve 2-byte fields plus the two 4-byte
`UlCodePageRange` fields) whose first field (`STypoAscender`, at offset 68)
encodes 0x0102 = 258. -/
def c3buf : List Nat :=
  List.replicate 68 0 ++ [1, 2] ++ List.replicate 30 0

/-- A 68-byte OS/2 buffer (fixed block only). -/
def c4bufShort : List Nat := List.replicate 68 5

/-- The same 68-byte fixed block followed by a 28-byte additional-fields
block of nonzero bytes (`UsWinAscent`-area bytes 2,1 then 9s). -/
def c4bufLong : List Nat :=
  List.replicate 68 5 ++ [2, 1] ++ List.replicate 26 9

/-- A 67-byte OS/2 buffer: one byte short of the fixed block. -/
def c5shortbuf : List Nat := List.replicate 67 0

/-- A 68-byte OS/2 buffer: exactly the fixed block. -/
def c5buf : List Nat := List.replicate 68 1

/-- Another 68-byte OS/2 buffer. -/
def c5cbuf : List Nat := List.replicate 68 2

/-- A 68-byte OS/2 buffer for the byte-retention claim. -/
def c9os2buf : List Nat := List.replicate 68 7

/-- An fvar buffer with `AxisCount = 0` and `InstanceCount = 0`
(the only shape on which `parseTableFvar` can succeed). -/
def c9fvarBuf : List Nat :=
  [0, 1, 0, 0, 0, 16, 0, 2, 0, 0, 0, 20, 0, 0, 0, 99]

/-- An fvar buffer with `AxisCount = 0`, `InstanceCount = 1`, `InstanceSize = 32`
(the size the code's broken arithmetic selects for the without-PS-name
branch), followed by 32 instance bytes. -/
def c10buf : List Nat :=
  [0, 1, 0, 0, 0, 16, 0, 2, 0, 0, 0, 20, 0, 1, 0, 32] ++ List.replicate 32 0

/-- Bridge between the code's bit test (`2 ^ k &&& w != 0`, the exact value
of `uint32(math.Exp2(float64(k))) & w != 0` for `k ≤ 31`) and the spec's bit
test (`(w >> k) & 1 = 1`). -/
theorem code_test_eq_spec_test (k w : Nat) :
    ((2 ^ k &&& w) != 0) = (((w >>> k) &&& 1) == 1) := by
  rw [Nat.two_pow_and, Nat.testBit_to_div_mod, Nat.and_one_is_mod,
    Nat.shiftRight_eq_div_pow]
  rcases Nat.mod_two_eq_zero_or_one (w / 2 ^ k) with h | h <;>
    simp [h, (Nat.two_pow_pos k).ne, (Nat.two_pow_pos k).ne']

/-- Bridge between the code's masked-equality test (`2 ^ k &&& w == 2 ^ k`,
the shape of the `Is*` predicates) and the spec's bit test. -/
theorem code_mask_eq_spec_test (k w : Nat) :
    ((2 ^ k &&& w) == 2 ^ k) = (((w >>> k) &&& 1) == 1) := by
  rw [Nat.two_pow_and, Nat.testBit_to_div_mod, Nat.and_one_is_mod,
    Nat.shiftRight_eq_div_pow]
  rcases Nat.mod_two_eq_zero_or_one (w / 2 ^ k) with h | h <;>
    simp [h, (Nat.two_pow_pos k).ne, (Nat.two_pow_pos k).ne']

/-- The code's per-entry support test agrees with the spec's bit test. -/
theorem isSupported_eq_specBitSet (e : UnicodeSupport) (mask : UnicodeRangeWords) :
    e.isSupported mask = specBitSet mask e.BitIndex := by
  simp only [UnicodeSupport.isSupported, specBitSet]
  exact code_test_eq_spec_test (e.BitIndex % 32) (mask.word (e.BitIndex / 32))

/-- The accumulator-passing fold of `UnicodeRanges` equals filter-then-emit
over any catalog prefix. -/
theorem unicodeRanges_foldl (mask : UnicodeRangeWords) (l : List UnicodeSupport)
    (acc : List String) :
    l.foldl
      (fun ranges unicodeRange =>
        if unicodeRange.isSupported mask then
          ranges ++ unicodeRange.UnicodeRanges.map (fun r => "U+" ++ r)
        else ranges) acc
      = acc ++ (l.filter (fun e => specBitSet mask e.BitIndex)).flatMap
          (fun e => e.UnicodeRanges.map (fun r => "U+" ++ r)) := by
  induction l generalizing acc with
  | nil => simp
  | cons e l ih =>
    rw [List.foldl_cons, List.filter_cons, isSupported_eq_specBitSet e mask]
    cases hb : specBitSet mask e.BitIndex with
    | true => simp [hb, ih, List.append_assoc]
    | false => simp [hb, ih]

/-- C6: for every decoded OS/2 table, `UnicodeRanges()` returns exactly the
"U+"-prefixed sub-range strings of those catalog entries whose bit `b`
satisfies `(bitmap[b/32] >> (b%32)) & 1 = 1`, in catalog declaration order;
and a bitmap with only bit 9 (Cyrillic) set yields exactly the four Cyrillic
sub-ranges. -/
theorem unicodeRanges_matches_spec :
    (∀ t : TableOS2, t.UnicodeRanges = specUnicodeRanges t.original.UlUnicodeRange) ∧
    (mkOs2 { zeroOriginal with
        UlUnicodeRange := { w0 := 512, w1 := 0, w2 := 0, w3 := 0 } }).UnicodeRanges
      = ["U+0400-04FF", "U+0500-052F", "U+2DE0-2DFF", "U+A640-A69F"] := by
  constructor
  · intro t
    unfold TableOS2.UnicodeRanges specUnicodeRanges
    simpa using unicodeRanges_foldl t.original.UlUnicodeRange SupportedUnicodeRanges []
  · decide

/-- Each selection predicate written as the spec's shift-and-mask bit test. -/
theorem isPredicates_eq_bit_tests (t : TableOS2) :
    t.IsItalic = (((t.original.FsSelection >>> 0) &&& 1) == 1) ∧
    t.IsUnderscore = (((t.original.FsSelection >>> 1) &&& 1) == 1) ∧
    t.IsNegative = (((t.original.FsSelection >>> 2) &&& 1) == 1) ∧
    t.IsOutlined = (((t.original.FsSelection >>> 3) &&& 1) == 1) ∧
    t.IsStrikeout = (((t.original.FsSelection >>> 4) &&& 1) == 1) ∧
    t.IsBold = (((t.original.FsSelection >>> 5) &&& 1) == 1) := by
  refine ⟨?_, ?_, ?_, ?_, ?_, ?_⟩
  · exact code_mask_eq_spec_test 0 t.original.FsSelection
  · simpa [TableOS2.IsUnderscore] using code_mask_eq_spec_test 1 t.original.FsSelection
  · simpa [TableOS2.IsNegative] using code_mask_eq_spec_test 2 t.original.FsSelection
  · simpa [TableOS2.IsOutlined] using code_mask_eq_spec_test 3 t.original.FsSelection
  · simpa [TableOS2.IsStrikeout] using code_mask_eq_spec_test 4 t.original.FsSelection
  · simpa [TableOS2.IsBold] using code_mask_eq_spec_test 5 t.original.FsSelection

/-- Function specFontStyle only ever produces one of the seven labels. -/
theorem specFontStyle_mem (sel : Nat) :
    specFontStyle sel ∈
      ["italic", "bold", "underscore", "outlined", "strikeout", "negative", "normal"] := by
  unfold specFontStyle
  split_ifs <;> simp

/-- C7: for every 16-bit selection value, `FontStyle()` returns exactly one
of the seven labels, chosen by testing bit 0 (italic), bit 5 (bold),
bit 1 (underscore), bit 3 (outlined), bit 4 (strikeout), bit 2 (negative)
in that priority order, with "normal" when none is set; concrete checks:
bits {0,1,5} set gives "italic", bits {1,5} set gives "bold", 0 gives
"normal". -/
theorem fontStyle_matches_spec :
    (∀ t : TableOS2, t.FontStyle = specFontStyle t.original.FsSelection ∧
       t.FontStyle ∈
         ["italic", "bold", "underscore", "outlined", "strikeout", "negative", "normal"]) ∧
    (mkOs2 { zeroOriginal with FsSelection := 0b100011 }).FontStyle = "italic" ∧
    (mkOs2 { zeroOriginal with FsSelection := 0b100010 }).FontStyle = "bold" ∧
    (mkOs2 { zeroOriginal with FsSelection := 0 }).FontStyle = "normal" := by
  refine ⟨fun t => ?_, by decide, by decide, by decide⟩
  obtain ⟨h0, h1, h2, h3, h4, h5⟩ := isPredicates_eq_bit_tests t
  have heq : t.FontStyle = specFontStyle t.original.FsSelection := by
    unfold TableOS2.FontStyle specFontStyle
    rw [h0, h1, h2, h3, h4, h5]
  exact ⟨heq, heq ▸ specFontStyle_mem t.original.FsSelection⟩

/-- C8: `WeightClass()` maps 1..9 to the nine named buckets and any other
value to its decimal string; concrete checks at 0, 400, 1000 and the named
bucket 7 = "Bold". -/
theorem weightClass_matches_spec :
    (∀ t : TableOS2, t.WeightClass = specWeightClass t.original.USWeightClass) ∧
    (mkOs2 { zeroOriginal with USWeightClass := 7 }).WeightClass = "Bold" ∧
    (mkOs2 { zeroOriginal with USWeightClass := 0 }).WeightClass = "0" ∧
    (mkOs2 { zeroOriginal with USWeightClass := 400 }).WeightClass = "400" ∧
    (mkOs2 { zeroOriginal with USWeightClass := 1000 }).WeightClass = "1000" := by
  refine ⟨fun t => ?_, by decide, by decide, by decide, by decide⟩
  unfold TableOS2.WeightClass specWeightClass
  split_ifs with h1 h2 h3 h4 h5 h6 h7 h8 h9 h10 <;>
    first
      | rfl
      | (exfalso; omega)
      | simp_all

/-- Shape of a successful OS/2 decode: any buffer of at least 68 bytes
decodes, with the additional-fields block at its zero value and the input
bytes retained. -/
theorem os2_parse_ok_of_len (tag : Nat) (buf : List Nat) (h : 68 ≤ buf.length) :
    ∃ t, parseTableOS2 tag buf = .ok t ∧ t.additional = zeroAdditionalFields ∧ t.bytes = buf := by
  unfold parseTableOS2 readTableOs2Original
  rw [if_neg (by omega)]
  exact ⟨_, rfl, rfl, rfl⟩

/-- Every successful OS/2 decode has a zero additional-fields block and
retains the input bytes. -/
theorem os2_parse_additional_zero (tag : Nat) (buf : List Nat) (t : TableOS2)
    (h : parseTableOS2 tag buf = .ok t) :
    t.additional = zeroAdditionalFields ∧ t.bytes = buf := by
  have hlen : 68 ≤ buf.length := by
    by_contra hlt
    unfold parseTableOS2 readTableOs2Original at h
    rw [if_pos (by omega)] at h
    exact Except.noConfusion h
  obtain ⟨t2, ht2, hz, hb⟩ := os2_parse_ok_of_len tag buf hlen
  rw [h] at ht2
  obtain rfl := Except.ok.inj ht2
  exact ⟨hz, hb⟩

/-- C3 counterexample: on a 100-byte buffer long enough for the 68-byte
fixed block plus the complete 32-byte additional-fields block
(`STypoAscender` through `UsUpperPointSize`), whose bytes at offset 68
encode `STypoAscender = 258`, the decoded table's `STypoAscender` is 0 —
the trailing additional-fields block is never decoded, contradicting the
claim that it is decoded from the bytes after offset 68. -/
theorem os2_trailing_bytes_not_decoded :
    sTypoAscenderOf (parseTableOS2 0 c3buf) = some 0 ∧
    i16at c3buf 68 = 258 ∧ c3buf.length = 100 := by decide

/-- C3 amended: `parseTableOS2` succeeds on any buffer of at least 68 bytes
(so a buffer that is short after the fixed block is indeed not an error),
but it never decodes the trailing additional fields: the additional-fields
block of the result is the zero record regardless of the bytes past
offset 68. -/
theorem os2_parse_ignores_trailing_block (tag : Nat) (buf : List Nat)
    (h : 68 ≤ buf.length) :
    ∃ t, parseTableOS2 tag buf = .ok t ∧ t.additional = zeroAdditionalFields := by
  obtain ⟨t, ht, hz, _⟩ := os2_parse_ok_of_len tag buf h
  exact ⟨t, ht, hz⟩

/-- C3 witness: the amended claim at the concrete 100-byte buffer. -/
theorem os2_parse_ignores_trailing_block_witness :
    c3buf.length = 100 ∧
    ∃ t, parseTableOS2 0 c3buf = .ok t ∧ t.additional = zeroAdditionalFields :=
  ⟨by decide, os2_parse_ignores_trailing_block 0 c3buf (by decide)⟩

/-- C4 counterexample: a 68-byte buffer with no trailing block and a 96-byte
buffer whose trailing 28 bytes are nonzero decode to tables with identical
(zero) additional-fields records, so "absent" is not distinguishable from
"decoded as zero" — the fields are silently zero-filled, contradicting the
claim. -/
theorem os2_absent_indistinguishable_from_zero :
    os2AdditionalOf (parseTableOS2 0 c4bufShort) = os2AdditionalOf (parseTableOS2 0 c4bufLong) ∧
    os2AdditionalOf (parseTableOS2 0 c4bufShort) = some zeroAdditionalFields ∧
    c4bufShort.length = 68 ∧ c4bufLong.length = 96 ∧ u16at c4bufLong 68 = 513 := by decide

/-- C4 amended: every table decoded by `parseTableOS2` carries an embedded
additional-fields record that is always the zero record — absent trailing
fields are silently zero-filled, and callers cannot distinguish "unknown"
from "zero". -/
theorem os2_additional_always_zero_filled (tag : Nat) (buf : List Nat) (t : TableOS2)
    (h : parseTableOS2 tag buf = .ok t) : t.additional = zeroAdditionalFields :=
  (os2_parse_additional_zero tag buf t h).1

/-- C4 witness: the amended claim at a concrete 68-byte buffer. -/
theorem os2_additional_always_zero_filled_witness :
    os2AdditionalOf (parseTableOS2 0 c4bufShort) = some zeroAdditionalFields := by
  cases hok : parseTableOS2 0 c4bufShort with
  | error e =>
    have hik : exceptIsOk (parseTableOS2 0 c4bufShort) = true := by decide
    rw [hok] at hik
    simp [exceptIsOk] at hik
  | ok t =>
    have hz := os2_additional_always_zero_filled 0 c4bufShort t hok
    simp [os2AdditionalOf, hz]

/-- C5 counterexample: on a buffer of exactly 68 bytes the decode succeeds,
but the optional trailing fields are not absent: the result embeds a
concrete zero-valued additional-fields record, the same value obtained from
a buffer carrying an explicit all-zero trailing block — contradicting
"succeeds with all optional trailing fields absent". -/
theorem os2_68_byte_fields_not_absent :
    sTypoAscenderOf (parseTableOS2 0 c5cbuf) = some 0 ∧ c5cbuf.length = 68 ∧
    sTypoAscenderOf (parseTableOS2 0 (c5cbuf ++ List.replicate 28 0)) = some 0 := by decide

/-- C5 amended: `parseTableOS2` fails with `Truncated` exactly when the
buffer is shorter than 68 bytes; on a buffer of exactly 68 bytes it
succeeds, with the additional-fields block left at its zero value (the
fields are zero-filled, not absent). -/
theorem os2_truncation_boundary (tag : Nat) (buf : List Nat) :
    (parseTableOS2 tag buf = .error .truncated ↔ buf.length < 68) ∧
    (buf.length = 68 →
      ∃ t, parseTableOS2 tag buf = .ok t ∧ t.additional = zeroAdditionalFields) := by
  constructor
  · constructor
    · intro hc
      by_contra hge
      obtain ⟨t, ht, _, _⟩ := os2_parse_ok_of_len tag buf (by omega)
      rw [ht] at hc
      exact Except.noConfusion hc
    · intro hlt
      unfold parseTableOS2 readTableOs2Original
      rw [if_pos hlt]
  · intro h68
    obtain ⟨t, ht, hz, _⟩ := os2_parse_ok_of_len tag buf (by omega)
    exact ⟨t, ht, hz⟩

/-- C5 witness: the amended claim at a 67-byte and a 68-byte buffer. -/
theorem os2_truncation_boundary_witness :
    parseTableOS2 0 c5shortbuf = .error .truncated ∧
    (∃ t, parseTableOS2 0 c5buf = .ok t ∧ t.additional = zeroAdditionalFields) :=
  ⟨(os2_truncation_boundary 0 c5shortbuf).1.mpr (by decide),
   (os2_truncation_boundary 0 c5buf).2 (by decide)⟩

/-- Stage equation: header read fails. -/
theorem parseTableFvar_header_none (tag : Nat) (buf : List Nat)
    (hh : readFvarHeader buf = none) :
    parseTableFvar tag buf = .error .truncated := by
  unfold parseTableFvar
  rw [hh]

/-- Stage equation: header read succeeds. -/
theorem parseTableFvar_header_some (tag : Nat) (buf : List Nat)
    (header : FvarHeader) (r1 : List Nat)
    (hh : readFvarHeader buf = some (header, r1)) :
    parseTableFvar tag buf = parseTableFvarAfterHeader tag buf header r1 := by
  unfold parseTableFvar
  rw [hh]

/-- Stage equation: axis loop fails. -/
theorem afterHeader_axes_none (tag : Nat) (buf : List Nat)
    (header : FvarHeader) (r1 : List Nat)
    (ha : readAxes header.AxisCount r1 = none) :
    parseTableFvarAfterHeader tag buf header r1 = .error .truncated := by
  unfold parseTableFvarAfterHeader
  rw [ha]

/-- Stage equation: axis loop succeeds. -/
theorem afterHeader_axes_some (tag : Nat) (buf : List Nat)
    (header : FvarHeader) (r1 : List Nat) (axes : List VariationAxis) (r2 : List Nat)
    (ha : readAxes header.AxisCount r1 = some (axes, r2)) :
    parseTableFvarAfterHeader tag buf header r1 =
      parseTableFvarAfterAxes tag buf header axes r2 := by
  unfold parseTableFvarAfterHeader
  rw [ha]

/-- Stage equation: instance loop fails. -/
theorem afterAxes_instances_error (tag : Nat) (buf : List Nat)
    (header : FvarHeader) (axes : List VariationAxis) (r2 : List Nat) (e : FontError)
    (hi : readInstances header.InstanceSize header.InstanceCount r2 = .error e) :
    parseTableFvarAfterAxes tag buf header axes r2 = .error e := by
  unfold parseTableFvarAfterAxes
  rw [hi]

/-- Stage equation: instance loop succeeds. -/
theorem afterAxes_instances_ok (tag : Nat) (buf : List Nat)
    (header : FvarHeader) (axes : List VariationAxis) (r2 : List Nat)
    (insts : List Instance) (r3 : List Nat)
    (hi : readInstances header.InstanceSize header.InstanceCount r2 = .ok (insts, r3)) :
    parseTableFvarAfterAxes tag buf header axes r2 =
      .ok { baseTable := tag, Header := header, Axis := axes,
            Instance := insts, bytes := buf } := by
  unfold parseTableFvarAfterAxes
  rw [hi]

/-- Reading one or more instance records always fails with an
invalid-binary-read error: `binary.Read` rejects both instance record types
(they contain slice/pointer fields), in either branch of the `InstanceSize`
comparison. -/
theorem readInstances_pos_error (sz n : Nat) (buf : List Nat) :
    ∃ s, readInstances sz (n + 1) buf = .error (.invalidBinaryRead s) := by
  by_cases h : sz = noPsNameIdVariant + invariant
  · exact ⟨"*sfnt.InstanceWithoutPSName", by
      unfold readInstances binaryReadInstanceWithoutPSName
      rw [if_pos h]⟩
  · exact ⟨"*sfnt.Instance", by
      unfold readInstances binaryReadInstance
      rw [if_neg h]⟩

/-- Every fvar table that decodes successfully retains the input bytes. -/
theorem fvar_parse_ok_bytes (tag : Nat) (buf : List Nat) (t : TableFvar)
    (h : parseTableFvar tag buf = .ok t) : t.bytes = buf := by
  cases hh : readFvarHeader buf with
  | none =>
    rw [parseTableFvar_header_none tag buf hh] at h
    exact Except.noConfusion h
  | some p =>
    obtain ⟨header, r1⟩ := p
    rw [parseTableFvar_header_some tag buf header r1 hh] at h
    cases ha : readAxes header.AxisCount r1 with
    | none =>
      rw [afterHeader_axes_none tag buf header r1 ha] at h
      exact Except.noConfusion h
    | some q =>
      obtain ⟨axes, r2⟩ := q
      rw [afterHeader_axes_some tag buf header r1 axes r2 ha] at h
      cases hi : readInstances header.InstanceSize header.InstanceCount r2 with
      | error e =>
        rw [afterAxes_instances_error tag buf header axes r2 e hi] at h
        exact Except.noConfusion h
      | ok w =>
        obtain ⟨insts, r3⟩ := w
        rw [afterAxes_instances_ok tag buf header axes r2 insts r3 hi] at h
        obtain rfl := Except.ok.inj h
        rfl

/-- C9: for every byte buffer from which an OS/2 or fvar table is
successfully decoded, `Bytes()` returns the original input byte slice
verbatim. -/
theorem tables_retain_bytes :
    (∀ tag buf t, parseTableOS2 tag buf = .ok t → t.Bytes = buf) ∧
    (∀ tag buf t, parseTableFvar tag buf = .ok t → t.Bytes = buf) :=
  ⟨fun tag buf t h => (os2_parse_additional_zero tag buf t h).2,
   fun tag buf t h => fvar_parse_ok_bytes tag buf t h⟩

/-- C9 witness: byte retention at a concrete OS/2 buffer and a concrete
fvar buffer (with zero instances, the only successful fvar shape). -/
theorem tables_retain_bytes_witness :
    bytesOfOs2 (parseTableOS2 5 c9os2buf) = some c9os2buf ∧
    bytesOfFvar (parseTableFvar 5 c9fvarBuf) = some c9fvarBuf := by
  constructor
  · cases hok : parseTableOS2 5 c9os2buf with
    | error e =>
      have hik : exceptIsOk (parseTableOS2 5 c9os2buf) = true := by decide
      rw [hok] at hik
      simp [exceptIsOk] at hik
    | ok t =>
      have hb := tables_retain_bytes.1 5 c9os2buf t hok
      simp [bytesOfOs2, hok, hb]
  · cases hok : parseTableFvar 5 c9fvarBuf with
    | error e =>
      have hik : exceptIsOk (parseTableFvar 5 c9fvarBuf) = true := by decide
      rw [hok] at hik
      simp [exceptIsOk] at hik
    | ok t =>
      have hb := tables_retain_bytes.2 5 c9fvarBuf t hok
      simp [bytesOfFvar, hok, hb]

/-- C10: whenever the fvar header decodes with `InstanceCount ≥ 1`,
`parseTableFvar` returns an error and never a table — `binary.Read` cannot
decode either instance record type (both contain slice/pointer fields). -/
theorem fvar_nonzero_instances_always_error (tag : Nat) (buf : List Nat)
    (header : FvarHeader) (r1 : List Nat)
    (hh : readFvarHeader buf = some (header, r1))
    (hc : 1 ≤ header.InstanceCount) :
    ∃ e, parseTableFvar tag buf = .error e := by
  rw [parseTableFvar_header_some tag buf header r1 hh]
  cases ha : readAxes header.AxisCount r1 with
  | none => exact ⟨.truncated, afterHeader_axes_none tag buf header r1 ha⟩
  | some p =>
    obtain ⟨axes, r2⟩ := p
    obtain ⟨n, hn⟩ : ∃ n, header.InstanceCount = n + 1 :=
      ⟨header.InstanceCount - 1, by omega⟩
    obtain ⟨s, hs⟩ := readInstances_pos_error header.InstanceSize n r2
    refine ⟨.invalidBinaryRead s, ?_⟩
    rw [afterHeader_axes_some tag buf header r1 axes r2 ha]
    exact afterAxes_instances_error tag buf header axes r2 _ (by rw [hn]; exact hs)

/-- C10 witness: the concrete buffer `c10buf` declares one instance and
fails to parse. -/
theorem fvar_nonzero_instances_always_error_witness :
    ∃ e, parseTableFvar 0 c10buf = .error e :=
  fvar_nonzero_instances_always_error 0 c10buf
    ⟨1, 0, 16, 2, 0, 20, 1, 32⟩ (List.replicate 32 0) (by decide) (by decide)

/-- C2 counterexample: a header whose `InstanceSize` (99) matches neither
expected instance-record size parses successfully (`InstanceCount = 0`) —
no `Malformed` error is produced, contradicting the claim. -/
theorem fvar_bad_instance_size_no_malformed :
    exceptIsOk (parseTableFvar 0 c2buf) = true ∧
    (readFvarHeader c2buf).map
        (fun p => (p.1.AxisCount, p.1.InstanceCount, p.1.InstanceSize))
      = some (0, 0, 99) := by decide

/-- C2 amended: `parseTableFvar` performs no validation of `InstanceSize`
and has no `Malformed` error: once the header and axis records have been
read, a table with `InstanceCount = 0` parses successfully whatever
`InstanceSize` declares, and a table with `InstanceCount ≥ 1` fails with
`binary.Read`'s invalid-type error, again regardless of `InstanceSize`. -/
theorem fvar_no_instance_size_validation (tag : Nat) (buf : List Nat)
    (header : FvarHeader) (r1 r2 : List Nat) (axes : List VariationAxis)
    (hh : readFvarHeader buf = some (header, r1))
    (ha : readAxes header.AxisCount r1 = some (axes, r2)) :
    (header.InstanceCount = 0 → exceptIsOk (parseTableFvar tag buf) = true) ∧
    (1 ≤ header.InstanceCount →
      ∃ s, parseTableFvar tag buf = .error (.invalidBinaryRead s)) := by
  rw [parseTableFvar_header_some tag buf header r1 hh,
    afterHeader_axes_some tag buf header r1 axes r2 ha]
  constructor
  · intro h0
    rw [afterAxes_instances_ok tag buf header axes r2 [] r2 (by rw [h0]; rfl)]
    rfl
  · intro h1
    obtain ⟨n, hn⟩ : ∃ n, header.InstanceCount = n + 1 :=
      ⟨header.InstanceCount - 1, by omega⟩
    obtain ⟨s, hs⟩ := readInstances_pos_error header.InstanceSize n r2
    exact ⟨s, afterAxes_instances_error tag buf header axes r2 _ (by rw [hn]; exact hs)⟩

/-- C2 witness: the amended claim at two concrete buffers, one with zero
instances (parses despite `InstanceSize = 7`) and one with two instances
(fails with the invalid-type error despite `InstanceSize = 6`, the spec's
"with identifier" size for zero axes). -/
theorem fvar_no_instance_size_validation_witness :
    exceptIsOk (parseTableFvar 0 c2wokbuf) = true ∧
    (∃ s, parseTableFvar 0 c2werrbuf = .error (.invalidBinaryRead s)) :=
  ⟨(fvar_no_instance_size_validation 0 c2wokbuf ⟨1, 0, 16, 2, 0, 20, 0, 7⟩
      [] [] [] (by decide) (by decide)).1 (by decide),
   (fvar_no_instance_size_validation 0 c2werrbuf ⟨1, 0, 16, 2, 0, 20, 2, 6⟩
      [] [] [] (by decide) (by decide)).2 (by decide)⟩

/-- C1, evaluated at the failing input: `c1buf` declares `AxisCount = 0`,
`InstanceCount = 1` and `InstanceSize = 4` — exactly the spec's
"without optional identifier" size (2 `NameID` bytes + 2 `Flags` bytes +
0·4 coordinate bytes) — and carries one well-formed 4-byte instance record.
The claim (and the spec) require the decode to succeed with the instance's
`PsNameID` absent; the code instead compares `InstanceSize` with the
constant 32 (from `unsafe.Sizeof` of `go/types` constants), takes the
with-PS-name branch, and `binary.Read` fails on the slice/pointer fields of
`Instance`, so the whole parse errors. -/
theorem fvar_spec_shape_resolution_fails :
    parseTableFvar 0 c1buf = .error (.invalidBinaryRead ("*sfnt.Instance")) ∧
    (readFvarHeader c1buf).map
        (fun p => (p.1.AxisCount, p.1.InstanceCount, p.1.InstanceSize))
      = some (0, 1, 4) := by decide

end Sfnt
